import Mathlib

/-! Connection lifecycle, request gate and route isolation of the internship portal backend.

A shallow embedding of

* `Backend/config/db.js`   (`connectDB`, the cached connection slot),
* `Backend/app.js`         (the `/api` database middleware, `safeRequire`, the route registrations),
* `Backend/api/index.js`   (the serverless entry point and its fallback handler),

followed by the properties proved about them.

Modelling conventions.

* JavaScript objects that the code only passes around (a Mongoose connection, a route module)
  are represented by natural-number identities.
* An `Error` is represented by its `message` (a string), next to its `stack` where that is read.
* `console.log` / `console.warn` / `console.error` output is not part of the model.
* A promise is a cell of the attempt table; the handshake settling, together with the `.then` /
  `.catch` handler attached to it, is one atomic event of the event loop.
-/

namespace Portal

/-! ## `config/db.js` -/

/-- State of the promise built at `db.js:28-60`
(`mongoose.connect(...).then(...).catch(...)`). -/
inductive Attempt where
  | inFlight
  | fulfilled (value : Option Nat)
  | rejected (message : String)
deriving DecidableEq, Repr

/-- The process-wide state read and written by `connectDB`:
`cached.conn`, `cached.promise` (an index into the table of attempts issued so far), the table of
attempts (one entry per `mongoose.connect` call, in call order) and the value that
`cached.conn.connection.readyState` currently reports. -/
structure World where
  conn : Option Nat
  promise : Option Nat
  attempts : List Attempt
  health : Nat
deriving DecidableEq, Repr

/-- The slot as created at `db.js:5-10`: `{ conn: null, promise: null }`, no attempt issued. -/
def World.empty (health : Nat) : World :=
  { conn := none, promise := none, attempts := [], health := health }

/-- Number of `mongoose.connect` calls issued so far. -/
def World.handshakes (w : World) : Nat := w.attempts.length

/-- JavaScript truthiness of `process.env.MONGO_URI`: defined and not the empty string. -/
def uriSet (uri : Option String) : Bool :=
  match uri with
  | some s => s != ""
  | none => false

/-- What the promise returned by the `async` function `connectDB` is bound to:
an immediate connection (`return cached.conn`), an immediate `null`,
or the promise stored in `cached.promise`. -/
inductive Acquired where
  | connection (c : Nat)
  | absent
  | attached (attempt : Nat)
deriving DecidableEq, Repr

/-- The body of `connectDB` (`db.js:14-64`). It contains no `await`, so it runs without interruption. -/
def connectDB (uri : Option String) (w : World) : Acquired × World :=
  match w.conn, decide (w.health = 1) with
  | some c, true => (Acquired.connection c, w)
  | _, _ =>
    if !uriSet uri then (Acquired.absent, w)
    else
      match w.promise with
      | some p => (Acquired.attached p, w)
      | none =>
        (Acquired.attached w.attempts.length,
          { w with promise := some w.attempts.length,
                   attempts := w.attempts ++ [Attempt.inFlight] })

/-- How a `mongoose.connect` handshake ends: with a connection object, or with an error
(represented by its message). -/
inductive Handshake where
  | connected (c : Nat)
  | failed (message : String)
deriving DecidableEq, Repr

/-- The `.then` handler (`db.js:35-40`): stores the connection and fulfils with it. -/
def onConnected (c : Nat) (w : World) : World × Attempt :=
  ({ w with conn := some c }, Attempt.fulfilled (some c))

/-- The `.catch` handler (`db.js:41-60`): clears `cached.promise` and fulfils with `null`. -/
def onFailed (_message : String) (w : World) : World × Attempt :=
  ({ w with promise := none }, Attempt.fulfilled none)

/-- The handshake of attempt `id` settles and its handler runs; the chained promise takes the
value the handler returns. An attempt that is not in flight cannot settle. -/
def settle (id : Nat) (h : Handshake) (w : World) : World :=
  match w.attempts[id]? with
  | some Attempt.inFlight =>
    match h with
    | Handshake.connected c =>
      let r := onConnected c w
      { r.1 with attempts := r.1.attempts.set id r.2 }
    | Handshake.failed m =>
      let r := onFailed m w
      { r.1 with attempts := r.1.attempts.set id r.2 }
  | _ => w

/-- What can happen to the slot between two turns of the event loop. -/
inductive Event where
  | call (uri : Option String)
  | settle (id : Nat) (h : Handshake)
  | drift (readyState : Nat)
deriving DecidableEq, Repr

/-- One event, returning what a caller of `connectDB` (if any) received. -/
def step (e : Event) (w : World) : Option Acquired × World :=
  match e with
  | Event.call uri => let r := connectDB uri w; (some r.1, r.2)
  | Event.settle id h => (none, settle id h w)
  | Event.drift rs => (none, { w with health := rs })

/-- Runs a trace of events, collecting what each `connectDB` caller received, in call order. -/
def run : List Event → World → List Acquired × World
  | [], w => ([], w)
  | e :: es, w =>
    let r := step e w
    let rest := run es r.2
    (match r.1 with
      | some a => a :: rest.1
      | none => rest.1, rest.2)

/-- States reachable from the empty slot. -/
def Reachable (w : World) : Prop :=
  ∃ (h0 : Nat) (es : List Event), (run es (World.empty h0)).2 = w

/-- Number of `connectDB` calls in a trace. -/
def callCount (es : List Event) : Nat :=
  (es.filter (fun e => match e with | Event.call _ => true | _ => false)).length

/-- Traces in which `connectDB` is called with the URI set and no handshake settles. -/
def beforeSettling : List Event → Bool
  | [] => true
  | Event.call uri :: es => uriSet uri && beforeSettling es
  | Event.settle _ _ :: _ => false
  | Event.drift _ :: es => beforeSettling es

/-- Traces in which every handshake that settles fails. -/
def failuresOnly : List Event → Bool
  | [] => true
  | Event.settle _ (Handshake.connected _) :: _ => false
  | _ :: es => failuresOnly es

/-- Slot states without a stored connection in which the pending-attempt field names exactly
the attempts that are in flight. -/
def Retrying (w : World) : Prop :=
  w.conn = none ∧ ∀ i, w.attempts[i]? = some Attempt.inFlight ↔ w.promise = some i

/-! ## HTTP plumbing shared by `app.js` and `api/index.js` -/

/-- The JSON values the handlers put into response bodies. -/
inductive JVal where
  | bool (b : Bool)
  | str (s : String)
  | num (n : Nat)
  | undefined
deriving DecidableEq, Repr

/-- An object literal: its properties in source order. -/
abbrev JObject := List (String × JVal)

/-- The body `res.json(obj)` sends: `JSON.stringify` drops properties whose value is `undefined`. -/
def stringify (obj : JObject) : JObject :=
  obj.filter (fun kv => kv.2 != JVal.undefined)

/-- The part of an incoming request the handlers read. -/
structure Request where
  method : String
  url : String
deriving DecidableEq, Repr

/-- What a handler does to `res` and `next`, in program order. -/
inductive Effect where
  | setHeader (name : String) (value : String)
  | status (code : Nat)
  | json (body : JObject)
  | endEmpty
  | callNext
deriving DecidableEq, Repr

/-- The value of a property of a response body. -/
def field (name : String) (obj : JObject) : Option JVal :=
  List.lookup name obj

/-- Status code of the response a handler produced, if it produced one. -/
def statusOf : List Effect → Option Nat
  | [] => none
  | Effect.status c :: _ => some c
  | _ :: es => statusOf es

/-- JSON body of the response a handler produced, if it sent one. -/
def bodyOf : List Effect → Option JObject
  | [] => none
  | Effect.json b :: _ => some b
  | _ :: es => bodyOf es

/-- Number of times the handler invoked `next`. -/
def nextCalls (es : List Effect) : Nat :=
  (es.filter (fun e => e == Effect.callNext)).length

/-- Whether the handler completed a response (`res.json(...)` or `res.end()`). -/
def responded (es : List Effect) : Bool :=
  es.any (fun e => match e with
    | Effect.json _ => true
    | Effect.endEmpty => true
    | _ => false)

/-- Headers set before the first status, body or `next` effect. -/
def headersBefore : List Effect → List (String × String)
  | Effect.setHeader k v :: es => (k, v) :: headersBefore es
  | _ => []

/-! ## `app.js`: the `/api` database middleware (lines 106-137) -/

/-- Outcome of one run of the middleware: what `connectDB` returned when it was called,
the effects on `res` / `next`, and the slot after the synchronous part. -/
structure GateRun where
  acquired : Option Acquired
  effects : List Effect
  world : World
deriving DecidableEq, Repr

/-- The middleware mounted on `/api`.
`rs0` is `mongoose.connection.readyState` on entry, `rs1` the same read after
`await connectDB()`; `raised` is the message of the error thrown out of the `await`, when the
awaited promise rejects. The `require` at line 115 returns the module already loaded at line 49,
so the only statement of the `try` block that can raise is the `await`. -/
def apiGate (uri : Option String) (rs0 : Nat) (raised : Option String) (rs1 : Nat)
    (w : World) : GateRun :=
  if rs0 = 1 then
    { acquired := none, effects := [Effect.callNext], world := w }
  else
    let r := connectDB uri w
    match raised with
    | none =>
      if rs1 = 1 then
        { acquired := some r.1, effects := [Effect.callNext], world := r.2 }
      else
        { acquired := some r.1,
          effects := [Effect.status 503, Effect.json (stringify
            [("success", JVal.bool false),
             ("message", JVal.str "Database connection failed"),
             ("error", JVal.str "Could not establish MongoDB connection. Please check your MONGO_URI environment variable."),
             ("mongoUriSet", JVal.bool (uriSet uri)),
             ("readyState", JVal.num rs1)])],
          world := r.2 }
    | some message =>
      { acquired := some r.1,
        effects := [Effect.status 503, Effect.json (stringify
          [("success", JVal.bool false),
           ("message", JVal.str "Database connection error"),
           ("error", JVal.str message),
           ("mongoUriSet", JVal.bool (uriSet uri))])],
        world := r.2 }

/-- What `await` yields for the promise `connectDB` returned, read in the slot state at the time
the caller resumes: the value of an immediate return, or the settled value of the attempt the
promise is bound to. `none` while that attempt is still in flight (the caller stays suspended);
`Except.error` when the attempt was rejected, which makes the `await` raise. -/
def awaited (a : Acquired) (w : World) : Option (Except String (Option Nat)) :=
  match a with
  | Acquired.connection c => some (Except.ok (some c))
  | Acquired.absent => some (Except.ok none)
  | Acquired.attached p =>
    match w.attempts[p]? with
    | some (Attempt.fulfilled v) => some (Except.ok v)
    | some (Attempt.rejected message) => some (Except.error message)
    | _ => none

/-- One request through the middleware against the slot `w`: the synchronous part calls
`connectDB`, the events `during` happen while the request is suspended at the `await`, and the
middleware resumes with what the `await` yields. `none` when the awaited attempt has not settled
by the end of `during`. -/
def gateRequest (uri : Option String) (rs0 rs1 : Nat) (during : List Event) (w : World) :
    Option GateRun :=
  if rs0 = 1 then some (apiGate uri rs0 none rs1 w)
  else
    match awaited (connectDB uri w).1 (run during (connectDB uri w).2).2 with
    | none => none
    | some (Except.ok _) => some (apiGate uri rs0 none rs1 w)
    | some (Except.error message) => some (apiGate uri rs0 (some message) rs1 w)

/-- Slot states in which no attempt of the table is rejected. -/
def NoRejection (w : World) : Prop :=
  ∀ a, a ∈ w.attempts → ∀ message, a ≠ Attempt.rejected message

/-! ## `app.js`: `safeRequire` and the route registrations (lines 192-262) -/

/-- What `safeRequire` hands to `app.use`: the module `require` returned, or the arrow function
built in the `catch` block. A handler either raises or produces effects. -/
inductive Handler where
  | module (m : Nat)
  | closure (handle : Request → Except String (List Effect))

/-- Whether a handler is the arrow function of the `catch` block. -/
def Handler.isFallback : Handler → Bool
  | Handler.module _ => false
  | Handler.closure _ => true

/-- `safeRequire` (`app.js:192-205`); `load` stands for Node's `require`, which returns the module
or throws an error (represented by its message). -/
def safeRequire (load : String → Except String Nat) (modulePath : String) : Handler :=
  match load modulePath with
  | Except.ok m => Handler.module m
  | Except.error message =>
    Handler.closure (fun _ =>
      Except.ok [Effect.status 500, Effect.json (stringify
        [("success", JVal.bool false),
         ("message", JVal.str ("Route module failed to load: " ++ modulePath)),
         ("error", JVal.str message)])])

/-- The module paths passed to `safeRequire` at `app.js:208-233`. -/
def routeModules : List String :=
  ["./routes/auth", "./routes/adminNew", "./routes/jobs", "./routes/applications",
   "./routes/students", "./routes/supervisors", "./routes/supervisionRequests",
   "./routes/supervisorReports", "./routes/notifications", "./routes/companyProfile",
   "./routes/companies", "./routes/offerLetters", "./routes/misconductReports",
   "./routes/internshipAppraisals", "./routes/progressReports", "./routes/joiningReports",
   "./routes/supervisorChat", "./routes/studentChat", "./routes/completionCertificates",
   "./routes/supervisorEvaluations", "./routes/finalEvaluation", "./routes/testData",
   "./routes/weeklyReports", "./routes/internshipReports", "./routes/interneeEvaluations",
   "./routes/testJobs"]

/-- The `app.use(prefix, routes)` registrations at `app.js:236-262`, each with the module path its
route variable was loaded from. `jobsRoutes` is registered twice (line 239 is the alias). -/
def registrations : List (String × String) :=
  [("/api/auth", "./routes/auth"),
   ("/api/admin", "./routes/adminNew"),
   ("/api/jobs", "./routes/jobs"),
   ("/api/internships", "./routes/jobs"),
   ("/api/applications", "./routes/applications"),
   ("/api/students", "./routes/students"),
   ("/api/supervisors", "./routes/supervisors"),
   ("/api/supervision-requests", "./routes/supervisionRequests"),
   ("/api/supervisor-reports", "./routes/supervisorReports"),
   ("/api/notifications", "./routes/notifications"),
   ("/api/company-profile", "./routes/companyProfile"),
   ("/api/companies", "./routes/companies"),
   ("/api/offer-letters", "./routes/offerLetters"),
   ("/api/misconduct-reports", "./routes/misconductReports"),
   ("/api/internship-appraisals", "./routes/internshipAppraisals"),
   ("/api/progress-reports", "./routes/progressReports"),
   ("/api/joining-reports", "./routes/joiningReports"),
   ("/api/supervisor-chat", "./routes/supervisorChat"),
   ("/api/student-chat", "./routes/studentChat"),
   ("/api/completion-certificates", "./routes/completionCertificates"),
   ("/api/supervisor-evaluations", "./routes/supervisorEvaluations"),
   ("/api/final-evaluation", "./routes/finalEvaluation"),
   ("/api/test-data", "./routes/testData"),
   ("/api/weekly-reports", "./routes/weeklyReports"),
   ("/api/internship-reports", "./routes/internshipReports"),
   ("/api/internee-evaluations", "./routes/interneeEvaluations"),
   ("/api/test-jobs", "./routes/testJobs")]

/-- The route table built at startup: every registered prefix with the handler bound to it. -/
def routeTable (load : String → Except String Nat) : List (String × Handler) :=
  registrations.map (fun r => (r.1, safeRequire load r.2))

/-- The prefixes of the route table that are bound to a fallback handler. -/
def fallbackPrefixes (load : String → Except String Nat) : List String :=
  ((routeTable load).filter (fun r => r.2.isFallback)).map (fun r => r.1)

/-- The prefixes under which a module path is registered. -/
def prefixesOf (modulePath : String) : List String :=
  (registrations.filter (fun r => r.2 == modulePath)).map (fun r => r.1)

/-- Load outcomes in which `m` is the only route module that fails to load. -/
def OnlyFails (load : String → Except String Nat) (m : String) : Prop :=
  ∀ p, p ∈ routeModules → ((∃ message, load p = Except.error message) ↔ p = m)

/-! ## `api/index.js`: the handler exported when `require('../app')` throws (lines 36-55) -/

/-- A JavaScript `Error`: its `message` and its `stack` (which may be undefined). -/
structure JsError where
  message : String
  stack : Option String
deriving DecidableEq, Repr

/-- The fallback handler of the serverless entry point; `nodeEnv` is `process.env.NODE_ENV`. -/
def initFallback (error : JsError) (nodeEnv : Option String) (req : Request) : List Effect :=
  [Effect.setHeader "Access-Control-Allow-Origin" "*",
   Effect.setHeader "Access-Control-Allow-Methods" "GET, POST, PUT, DELETE, OPTIONS, PATCH",
   Effect.setHeader "Access-Control-Allow-Headers" "Content-Type, Authorization, X-Requested-With",
   Effect.setHeader "Access-Control-Allow-Credentials" "true"] ++
  (if req.method = "OPTIONS" then
    [Effect.status 200, Effect.endEmpty]
  else
    [Effect.status 500, Effect.json (stringify
      [("success", JVal.bool false),
       ("message", JVal.str "Server initialization failed"),
       ("error", JVal.str error.message),
       ("stack", if nodeEnv = some "development" then
                   (match error.stack with
                    | some s => JVal.str s
                    | none => JVal.undefined)
                 else JVal.undefined)])])

/-! ## Example inputs used below -/

/-- A connection URI that is set. -/
def sampleUri : Option String := some "mongodb://db.example/portal"

/-- First call, the driver reports connected, the handshake succeeds. -/
def connectedTrace : List Event :=
  [Event.call sampleUri, Event.drift 1, Event.settle 0 (Handshake.connected 7)]

/-- As `connectedTrace`, after which the driver reports disconnected. -/
def droppedTrace : List Event :=
  connectedTrace ++ [Event.drift 0]

/-- Load outcomes in which exactly the module path `m` fails. -/
def failing (m : String) (p : String) : Except String Nat :=
  if p = m then Except.error "Cannot find module" else Except.ok p.length

/-- An error with a stack trace. -/
def sampleError : JsError :=
  { message := "Cannot find module express", stack := some "Error: Cannot find module express at index.js:30" }

/-! ## Lemmas about `connectDB` and traces -/

theorem connectDB_healthy (uri : Option String) (w : World) (c : Nat)
    (hc : w.conn = some c) (hh : w.health = 1) :
    connectDB uri w = (Acquired.connection c, w) := by
  simp [connectDB, hc, hh]

theorem connectDB_unhealthy (uri : Option String) (w : World)
    (h : ¬ (w.conn.isSome = true ∧ w.health = 1)) :
    connectDB uri w =
      if !uriSet uri then (Acquired.absent, w)
      else
        match w.promise with
        | some p => (Acquired.attached p, w)
        | none =>
          (Acquired.attached w.attempts.length,
            { w with promise := some w.attempts.length,
                     attempts := w.attempts ++ [Attempt.inFlight] }) := by
  unfold connectDB
  cases hc : w.conn with
  | none => simp
  | some c =>
    have hh : ¬ w.health = 1 := fun hh => h ⟨by simp [hc], hh⟩
    simp [hh]

theorem run_pending (es : List Event) (w : World)
    (hc : w.conn = none) (hp : w.promise = some 0) (ha : w.attempts = [Attempt.inFlight])
    (hes : beforeSettling es = true) :
    (run es w).1 = List.replicate (callCount es) (Acquired.attached 0) ∧
    (run es w).2.conn = none ∧ (run es w).2.promise = some 0 ∧
    (run es w).2.attempts = [Attempt.inFlight] := by
  induction es generalizing w with
  | nil => simp [run, callCount, hc, hp, ha]
  | cons e es ih =>
    cases e with
    | call uri =>
      simp only [beforeSettling, Bool.and_eq_true] at hes
      have hcall : connectDB uri w = (Acquired.attached 0, w) := by
        rw [connectDB_unhealthy uri w (by simp [hc])]
        simp [hes.1, hp]
      have := ih w hc hp ha hes.2
      simp only [run, step, hcall]
      simp only [callCount] at this ⊢
      simp [List.filter_cons, List.replicate_succ, this]
    | settle id h => simp [beforeSettling] at hes
    | drift rs =>
      simp only [beforeSettling] at hes
      have := ih { w with health := rs } hc hp ha hes
      simp only [run, step]
      simp only [callCount] at this ⊢
      simp [List.filter_cons, this]

theorem run_empty_before_settling (es : List Event) (h0 : Nat)
    (hes : beforeSettling es = true) (hN : 1 ≤ callCount es) :
    (run es (World.empty h0)).1 = List.replicate (callCount es) (Acquired.attached 0) ∧
    (run es (World.empty h0)).2.conn = none ∧ (run es (World.empty h0)).2.promise = some 0 ∧
    (run es (World.empty h0)).2.attempts = [Attempt.inFlight] := by
  induction es generalizing h0 with
  | nil => simp [callCount] at hN
  | cons e es ih =>
    cases e with
    | call uri =>
      simp only [beforeSettling, Bool.and_eq_true] at hes
      have hcall : connectDB uri (World.empty h0) =
          (Acquired.attached 0,
            { conn := none, promise := some 0, attempts := [Attempt.inFlight], health := h0 }) := by
        rw [connectDB_unhealthy uri _ (by simp [World.empty])]
        simp [hes.1, World.empty]
      have := run_pending es
        { conn := none, promise := some 0, attempts := [Attempt.inFlight], health := h0 }
        rfl rfl rfl hes.2
      simp only [run, step, hcall]
      simp only [callCount] at this ⊢
      simp [List.filter_cons, List.replicate_succ, this]
    | settle id h => simp [beforeSettling] at hes
    | drift rs =>
      simp only [beforeSettling] at hes
      have hN2 : 1 ≤ callCount es := by
        simpa [callCount, List.filter_cons] using hN
      have := ih rs hes hN2
      simp only [run, step]
      simp only [callCount] at this ⊢
      simpa [List.filter_cons, World.empty] using this

theorem settle_failed (w : World) (id : Nat) (message : String)
    (hin : w.attempts[id]? = some Attempt.inFlight) :
    settle id (Handshake.failed message) w =
      { w with promise := none, attempts := w.attempts.set id (Attempt.fulfilled none) } := by
  simp [settle, hin, onFailed]

theorem settle_connected (w : World) (id c : Nat)
    (hin : w.attempts[id]? = some Attempt.inFlight) :
    settle id (Handshake.connected c) w =
      { w with conn := some c, attempts := w.attempts.set id (Attempt.fulfilled (some c)) } := by
  simp [settle, hin, onConnected]

theorem settle_not_in_flight (w : World) (id : Nat) (h : Handshake)
    (hin : w.attempts[id]? ≠ some Attempt.inFlight) :
    settle id h w = w := by
  unfold settle
  split
  · next heq => exact absurd heq hin
  · rfl

theorem connectDB_starts (uri : Option String) (w : World)
    (huri : uriSet uri = true) (hconn : ¬ (w.conn.isSome = true ∧ w.health = 1))
    (hp : w.promise = none) :
    connectDB uri w =
      (Acquired.attached w.attempts.length,
        { w with promise := some w.attempts.length,
                 attempts := w.attempts ++ [Attempt.inFlight] }) := by
  rw [connectDB_unhealthy uri w hconn]
  simp [huri, hp]

theorem connectDB_attaches (uri : Option String) (w : World) (p : Nat)
    (huri : uriSet uri = true) (hconn : ¬ (w.conn.isSome = true ∧ w.health = 1))
    (hp : w.promise = some p) :
    connectDB uri w = (Acquired.attached p, w) := by
  rw [connectDB_unhealthy uri w hconn]
  simp [huri, hp]

theorem retrying_connectDB (uri : Option String) (w : World) (hw : Retrying w) :
    Retrying (connectDB uri w).2 := by
  obtain ⟨hc, hi⟩ := hw
  rw [connectDB_unhealthy uri w (by simp [hc])]
  by_cases hu : uriSet uri = true
  · cases hp : w.promise with
    | some p => simpa [hu, hp, Retrying, hc] using hi
    | none =>
      simp only [hu, Bool.not_true, Bool.false_eq_true, if_false]
      refine ⟨hc, fun i => ?_⟩
      have hnone : ∀ j : Nat, w.attempts[j]? ≠ some Attempt.inFlight := by
        intro j hj
        have := (hi j).mp hj
        simp [hp] at this
      show (w.attempts ++ [Attempt.inFlight])[i]? = some Attempt.inFlight ↔
        some w.attempts.length = some i
      rcases Nat.lt_trichotomy i w.attempts.length with hlt | heq | hgt
      · rw [List.getElem?_append_left hlt]
        constructor
        · intro h; exact absurd h (hnone i)
        · intro h; simp at h; omega
      · subst heq
        simp
      · rw [List.getElem?_eq_none (by simp; omega)]
        constructor
        · intro h; simp at h
        · intro h; simp at h; omega
  · simpa [hu, Retrying, hc] using hi

theorem retrying_settle_failed (id : Nat) (message : String) (w : World) (hw : Retrying w) :
    Retrying (settle id (Handshake.failed message) w) := by
  by_cases hin : w.attempts[id]? = some Attempt.inFlight
  · rw [settle_failed w id message hin]
    obtain ⟨hc, hi⟩ := hw
    refine ⟨hc, fun i => ?_⟩
    show (w.attempts.set id (Attempt.fulfilled none))[i]? = some Attempt.inFlight ↔
      (none : Option Nat) = some i
    have hpid := (hi id).mp hin
    constructor
    · intro h
      by_cases hii : id = i
      · subst hii
        rw [List.getElem?_set] at h
        split at h <;> simp_all
      · rw [List.getElem?_set_ne hii] at h
        have := (hi i).mp h
        rw [hpid] at this
        simp at this
        exact absurd this hii
    · intro h; simp at h
  · rw [settle_not_in_flight w id _ hin]
    exact hw

theorem retrying_run (es : List Event) (w : World) (hes : failuresOnly es = true)
    (hw : Retrying w) : Retrying (run es w).2 := by
  induction es generalizing w with
  | nil => simpa [run] using hw
  | cons e es ih =>
    cases e with
    | call uri =>
      have hes2 : failuresOnly es = true := by simpa [failuresOnly] using hes
      simpa [run, step] using ih _ hes2 (retrying_connectDB uri w hw)
    | settle id h =>
      cases h with
      | connected c => simp [failuresOnly] at hes
      | failed m =>
        have hes2 : failuresOnly es = true := by simpa [failuresOnly] using hes
        simpa [run, step] using ih _ hes2 (retrying_settle_failed id m w hw)
    | drift rs =>
      have hes2 : failuresOnly es = true := by simpa [failuresOnly] using hes
      have hw2 : Retrying { w with health := rs } := hw
      simpa [run, step] using ih _ hes2 hw2

theorem retrying_empty (h0 : Nat) : Retrying (World.empty h0) := by
  simp [Retrying, World.empty]

theorem isFallback_safeRequire (load : String → Except String Nat) (p : String) :
    (safeRequire load p).isFallback = true ↔ ∃ message, load p = Except.error message := by
  unfold safeRequire
  cases h : load p with
  | ok m => simp [Handler.isFallback]
  | error e => simp [Handler.isFallback]

theorem safeRequire_handler (load : String → Except String Nat) (p e : String)
    (he : load p = Except.error e) :
    ∃ handle, safeRequire load p = Handler.closure handle ∧
      (Handler.closure handle).isFallback = true := by
  refine ⟨_, by simp only [safeRequire, he]; rfl, rfl⟩

theorem onlyFails_failing (m : String) : OnlyFails (failing m) m := by
  intro p _
  unfold failing
  by_cases h : p = m
  · simp [h]
  · simp [h]

theorem fallback_filter_eq (load : String → Except String Nat) (m : String)
    (h : OnlyFails load m) (regs : List (String × String))
    (hregs : ∀ r, r ∈ regs → r.2 ∈ routeModules) :
    (((regs.map (fun r => (r.1, safeRequire load r.2))).filter
        (fun r => r.2.isFallback)).map (fun r => r.1)) =
      (regs.filter (fun r => r.2 == m)).map (fun r => r.1) := by
  induction regs with
  | nil => rfl
  | cons r rs ih =>
    have hr : r.2 ∈ routeModules := hregs r (List.mem_cons_self _ _)
    have ih2 := ih (fun x hx => hregs x (List.mem_cons_of_mem _ hx))
    have hiff := (isFallback_safeRequire load r.2).trans (h r.2 hr)
    by_cases hm : r.2 = m
    · have hf : (safeRequire load r.2).isFallback = true := hiff.mpr hm
      have hb : (r.2 == m) = true := by simpa using hm
      simp only [List.map_cons, List.filter_cons]
      rw [if_pos hf, if_pos hb]
      simp only [List.map_cons]
      rw [ih2]
    · have hf : ¬ (safeRequire load r.2).isFallback = true := fun hf => hm (hiff.mp hf)
      have hb : ¬ (r.2 == m) = true := by simpa using hm
      simp only [List.map_cons, List.filter_cons]
      rw [if_neg hf, if_neg hb]
      exact ih2

theorem registrations_modules : ∀ r, r ∈ registrations → r.2 ∈ routeModules := by
  decide

theorem prefixes_per_module :
    ∀ m, m ∈ routeModules →
      (prefixesOf m).length = (if m = "./routes/jobs" then 2 else 1) := by
  decide

theorem registered_prefixes_distinct : (registrations.map (fun r => r.1)).Nodup := by
  decide

theorem noRejection_connectDB (uri : Option String) (w : World) (hw : NoRejection w) :
    NoRejection (connectDB uri w).2 := by
  unfold connectDB
  split
  · exact hw
  · split
    · exact hw
    · split
      · exact hw
      · intro a ha message
        rcases List.mem_append.mp ha with h | h
        · exact hw a h message
        · simp at h
          simp [h]

theorem noRejection_settle (id : Nat) (h : Handshake) (w : World) (hw : NoRejection w) :
    NoRejection (settle id h w) := by
  by_cases hin : w.attempts[id]? = some Attempt.inFlight
  · cases h with
    | connected c =>
      rw [settle_connected w id c hin]
      intro a ha message
      rcases List.mem_or_eq_of_mem_set ha with h1 | h1
      · exact hw a h1 message
      · simp [h1]
    | failed m =>
      rw [settle_failed w id m hin]
      intro a ha message
      rcases List.mem_or_eq_of_mem_set ha with h1 | h1
      · exact hw a h1 message
      · simp [h1]
  · rw [settle_not_in_flight w id h hin]
    exact hw

theorem noRejection_run (es : List Event) (w : World) (hw : NoRejection w) :
    NoRejection (run es w).2 := by
  induction es generalizing w with
  | nil => simpa [run] using hw
  | cons e es ih =>
    cases e with
    | call uri => simpa [run, step] using ih _ (noRejection_connectDB uri w hw)
    | settle id h => simpa [run, step] using ih _ (noRejection_settle id h w hw)
    | drift rs =>
      have hw2 : NoRejection { w with health := rs } := hw
      simpa [run, step] using ih _ hw2

theorem noRejection_empty (h0 : Nat) : NoRejection (World.empty h0) := by
  intro a ha
  simp [World.empty] at ha

theorem awaited_never_raises (a : Acquired) (w : World) (hw : NoRejection w)
    (message : String) : awaited a w ≠ some (Except.error message) := by
  unfold awaited
  cases a with
  | connection c => simp
  | absent => simp
  | attached p =>
    simp only
    split
    · simp
    · next m heq => exact absurd rfl (hw _ (List.getElem?_mem heq) m)
    · simp

/-! ## Claims -/

/-- C1. Starting from the empty slot, in every trace in which `connectDB` is called `N ≥ 1` times
with the URI set and no handshake settles (calls may be interleaved with changes of the reported
health), exactly one `mongoose.connect` handshake is issued, it is the slot's pending attempt,
and every one of the `N` callers receives that same attempt. -/
theorem concurrent_first_calls_share_one_handshake (h0 : Nat) (es : List Event)
    (hes : beforeSettling es = true) (hN : 1 ≤ callCount es) :
    (run es (World.empty h0)).2.handshakes = 1 ∧
    (run es (World.empty h0)).2.promise = some 0 ∧
    (run es (World.empty h0)).2.attempts[0]? = some Attempt.inFlight ∧
    (run es (World.empty h0)).1.length = callCount es ∧
    ∀ a, a ∈ (run es (World.empty h0)).1 → a = Acquired.attached 0 := by
  obtain ⟨h1, _, h3, h4⟩ := run_empty_before_settling es h0 hes hN
  refine ⟨by simp [World.handshakes, h4], h3, by simp [h4], by simp [h1], ?_⟩
  intro a ha
  rw [h1] at ha
  exact (List.mem_replicate.mp ha).2

theorem concurrent_first_calls_share_one_handshake_witness :
    beforeSettling [Event.call sampleUri, Event.drift 2, Event.call sampleUri,
      Event.call sampleUri] = true ∧
    1 ≤ callCount [Event.call sampleUri, Event.drift 2, Event.call sampleUri,
      Event.call sampleUri] ∧
    (run [Event.call sampleUri, Event.drift 2, Event.call sampleUri,
      Event.call sampleUri] (World.empty 0)).2.handshakes = 1 :=
  ⟨by decide, by decide,
    (concurrent_first_calls_share_one_handshake 0
      [Event.call sampleUri, Event.drift 2, Event.call sampleUri, Event.call sampleUri]
      (by decide) (by decide)).1⟩

/-- C9. Whenever the connection URI is absent (undefined or empty) and the slot holds no
connection whose health reads connected, `connectDB` returns absent, issues no handshake and
leaves the slot unchanged, whatever the pending-attempt field holds. -/
theorem connectDB_without_uri_is_absent (uri : Option String) (w : World)
    (huri : uri = none ∨ uri = some "")
    (hconn : ¬ (w.conn.isSome = true ∧ w.health = 1)) :
    connectDB uri w = (Acquired.absent, w) ∧
    (connectDB uri w).2.handshakes = w.handshakes := by
  have h : uriSet uri = false := by
    rcases huri with h | h <;> simp [h, uriSet]
  rw [connectDB_unhealthy uri w hconn]
  simp [h]

theorem connectDB_without_uri_is_absent_witness :
    ((some "" : Option String) = none ∨ (some "" : Option String) = some "") ∧
    connectDB (some "")
      { conn := none, promise := some 0, attempts := [Attempt.inFlight], health := 2 } =
      (Acquired.absent,
        { conn := none, promise := some 0, attempts := [Attempt.inFlight], health := 2 }) :=
  ⟨Or.inr rfl,
    (connectDB_without_uri_is_absent (some "")
      { conn := none, promise := some 0, attempts := [Attempt.inFlight], health := 2 }
      (Or.inr rfl) (by decide)).1⟩

/-- C3. A failed handshake is retried. For every slot state and every attempt `id` in flight
whose handshake fails with any error: the attempt is fulfilled with absent (it is not rejected),
the slot's pending attempt is cleared, and the next `connectDB` call with the URI set and no
healthy connection issues exactly one new handshake and records it as the pending attempt.
Moreover, in every state reached from the empty slot by a trace in which no handshake succeeds,
the slot holds no connection and its pending attempt, when present, is still in flight, so a
call with the URI set always ends attached to an attempt that is in flight. -/
theorem failed_handshake_is_retried (w : World) (id : Nat) (message : String)
    (uri : Option String) (rs : Nat) (es : List Event) (h0 : Nat)
    (hin : w.attempts[id]? = some Attempt.inFlight)
    (huri : uriSet uri = true)
    (hconn : ¬ (w.conn.isSome = true ∧ rs = 1))
    (hes : failuresOnly es = true) :
    ((settle id (Handshake.failed message) w).attempts[id]? = some (Attempt.fulfilled none) ∧
     (settle id (Handshake.failed message) w).promise = none ∧
     (settle id (Handshake.failed message) w).conn = w.conn ∧
     (settle id (Handshake.failed message) w).handshakes = w.handshakes ∧
     (connectDB uri { settle id (Handshake.failed message) w with health := rs }).1 =
        Acquired.attached w.handshakes ∧
     (connectDB uri { settle id (Handshake.failed message) w with health := rs }).2.handshakes =
        w.handshakes + 1 ∧
     (connectDB uri { settle id (Handshake.failed message) w with health := rs }).2.promise =
        some w.handshakes ∧
     (connectDB uri { settle id (Handshake.failed message) w with health := rs }).2.attempts[w.handshakes]? =
        some Attempt.inFlight) ∧
    ((run es (World.empty h0)).2.conn = none ∧
     (∀ p, (run es (World.empty h0)).2.promise = some p →
        (run es (World.empty h0)).2.attempts[p]? = some Attempt.inFlight) ∧
     ∃ p, (connectDB uri (run es (World.empty h0)).2).1 = Acquired.attached p ∧
        (connectDB uri (run es (World.empty h0)).2).2.attempts[p]? = some Attempt.inFlight ∧
        (connectDB uri (run es (World.empty h0)).2).2.handshakes =
          (run es (World.empty h0)).2.handshakes +
            (if (run es (World.empty h0)).2.promise = none then 1 else 0)) := by
  have hlt : id < w.attempts.length := by
    rcases Nat.lt_or_ge id w.attempts.length with h | h
    · exact h
    · rw [List.getElem?_eq_none h] at hin
      simp at hin
  have hs := settle_failed w id message hin
  have hstart := connectDB_starts uri
    { settle id (Handshake.failed message) w with health := rs } huri
    (by rw [hs]; exact hconn) (by rw [hs])
  refine ⟨⟨?_, ?_, ?_, ?_, ?_, ?_, ?_, ?_⟩, ?_⟩
  · rw [hs]; simp [hlt]
  · rw [hs]
  · rw [hs]
  · rw [hs]; simp [World.handshakes]
  · rw [hstart, hs]; simp [World.handshakes]
  · rw [hstart, hs]; simp [World.handshakes]
  · rw [hstart, hs]; simp [World.handshakes]
  · rw [hstart, hs]; simp [World.handshakes]
  · have hr := retrying_run es (World.empty h0) hes (retrying_empty h0)
    obtain ⟨hc, hi⟩ := hr
    refine ⟨hc, fun p hp => (hi p).mpr hp, ?_⟩
    have hbad : ¬ ((run es (World.empty h0)).2.conn.isSome = true ∧
        (run es (World.empty h0)).2.health = 1) := by simp [hc]
    cases hp : (run es (World.empty h0)).2.promise with
    | some p =>
      rw [connectDB_attaches uri _ p huri hbad hp]
      exact ⟨p, rfl, (hi p).mpr hp, by simp⟩
    | none =>
      rw [connectDB_starts uri _ huri hbad hp]
      exact ⟨_, rfl, by simp, by simp [World.handshakes]⟩

theorem failed_handshake_is_retried_witness :
    uriSet sampleUri = true ∧
    failuresOnly [Event.call sampleUri, Event.settle 0 (Handshake.failed "timed out")] = true ∧
    (settle 0 (Handshake.failed "timed out")
      { conn := none, promise := some 0, attempts := [Attempt.inFlight], health := 0 }).promise =
      none ∧
    (connectDB sampleUri
      { settle 0 (Handshake.failed "timed out")
          { conn := none, promise := some 0, attempts := [Attempt.inFlight], health := 0 }
        with health := 0 }).2.handshakes = 2 :=
  ⟨by decide, by decide,
    (failed_handshake_is_retried
      { conn := none, promise := some 0, attempts := [Attempt.inFlight], health := 0 }
      0 "timed out" sampleUri 0
      [Event.call sampleUri, Event.settle 0 (Handshake.failed "timed out")] 0
      (by decide) (by decide) (by decide) (by decide)).1.2.1,
    (failed_handshake_is_retried
      { conn := none, promise := some 0, attempts := [Attempt.inFlight], health := 0 }
      0 "timed out" sampleUri 0
      [Event.call sampleUri, Event.settle 0 (Handshake.failed "timed out")] 0
      (by decide) (by decide) (by decide) (by decide)).1.2.2.2.2.2.1⟩

/-- C4 at the state after the first successful handshake: the state is reachable, the slot holds
connection 7 whose health reads connected, and the pending-attempt field still holds attempt 0,
because the `.then` handler stores the connection without clearing the field (the `.catch`
handler does clear it). So the invariant of the claim does not hold of the code. -/
theorem success_keeps_pending_attempt :
    Reachable (run connectedTrace (World.empty 0)).2 ∧
    (run connectedTrace (World.empty 0)).2.conn = some 7 ∧
    (run connectedTrace (World.empty 0)).2.health = 1 ∧
    (run connectedTrace (World.empty 0)).2.promise = some 0 ∧
    ¬ (∀ w : World, Reachable w → ∀ c, w.conn = some c → w.health = 1 → w.promise = none) := by
  have hr : Reachable (run connectedTrace (World.empty 0)).2 := ⟨0, connectedTrace, rfl⟩
  refine ⟨hr, by decide, by decide, by decide, fun h => ?_⟩
  have := h _ hr 7 (by decide) (by decide)
  revert this
  decide

/-- C5 at the state named in its last sentence: a handshake succeeded earlier and the stored
connection's health now reads disconnected. The state is reachable, the URI is set, no connection
is healthy and no attempt is in flight, yet `connectDB` issues no handshake: it returns the
settled attempt 0 still held in the pending-attempt field and leaves the slot unchanged. -/
theorem stale_attempt_blocks_reconnect :
    Reachable (run droppedTrace (World.empty 0)).2 ∧
    uriSet sampleUri = true ∧
    (run droppedTrace (World.empty 0)).2.conn = some 7 ∧
    (run droppedTrace (World.empty 0)).2.health = 0 ∧
    (run droppedTrace (World.empty 0)).2.attempts = [Attempt.fulfilled (some 7)] ∧
    connectDB sampleUri (run droppedTrace (World.empty 0)).2 =
      (Acquired.attached 0, (run droppedTrace (World.empty 0)).2) ∧
    (connectDB sampleUri (run droppedTrace (World.empty 0)).2).2.handshakes = 1 :=
  ⟨⟨0, droppedTrace, rfl⟩, by decide, by decide, by decide, by decide, by decide, by decide⟩

/-- C2. For every slot state, URI and pair of health reads, the `/api` middleware invokes `next`
exactly when the health reads connected on entry, or the awaited `connectDB` call did not raise
and the health reads connected after it; in particular `next` is invoked only if the health read
connected on entry or after the acquire cycle, and when neither read is connected the middleware
answers 503 without invoking `next`. Exactly one of the two happens: either `next` is invoked
once and nothing is sent, or a 503 response is sent and `next` is not invoked. When the health
reads connected on entry, `connectDB` is not called and the slot is untouched; otherwise it is
called exactly once. -/
theorem apiGate_forwards_only_when_connected (uri : Option String) (rs0 rs1 : Nat)
    (raised : Option String) (w : World) :
    (nextCalls (apiGate uri rs0 raised rs1 w).effects = 1 ↔
      (rs0 = 1 ∨ (raised = none ∧ rs1 = 1))) ∧
    (0 < nextCalls (apiGate uri rs0 raised rs1 w).effects → (rs0 = 1 ∨ rs1 = 1)) ∧
    (¬ (rs0 = 1 ∨ rs1 = 1) →
      statusOf (apiGate uri rs0 raised rs1 w).effects = some 503 ∧
      responded (apiGate uri rs0 raised rs1 w).effects = true ∧
      nextCalls (apiGate uri rs0 raised rs1 w).effects = 0) ∧
    (((apiGate uri rs0 raised rs1 w).effects = [Effect.callNext] ∧
        responded (apiGate uri rs0 raised rs1 w).effects = false) ∨
     (nextCalls (apiGate uri rs0 raised rs1 w).effects = 0 ∧
        responded (apiGate uri rs0 raised rs1 w).effects = true ∧
        statusOf (apiGate uri rs0 raised rs1 w).effects = some 503)) ∧
    (rs0 = 1 →
      (apiGate uri rs0 raised rs1 w).acquired = none ∧
      (apiGate uri rs0 raised rs1 w).world = w) ∧
    (rs0 ≠ 1 →
      (apiGate uri rs0 raised rs1 w).acquired = some (connectDB uri w).1 ∧
      (apiGate uri rs0 raised rs1 w).world = (connectDB uri w).2) := by
  by_cases h0 : rs0 = 1
  · simp [apiGate, h0, nextCalls, responded, statusOf]
  · cases raised with
    | none =>
      by_cases h1 : rs1 = 1
      · simp [apiGate, h0, h1, nextCalls, responded, statusOf]
      · simp [apiGate, h0, h1, nextCalls, responded, statusOf]
    | some message =>
      simp [apiGate, h0, nextCalls, responded, statusOf]

/-- C6. For every request through the `/api` middleware against a slot state reached from the
empty slot, with any events happening while the request is suspended at the `await`: the promise
`connectDB` returned is never rejected, so the `await` does not raise (the request resumes on
the path of lines 118-128), and every 503 response the middleware produces has a JSON body with
`success = false`, a `message` string, an `error` string, `mongoUriSet` equal to whether the URI
is set (hence `true` when the URI is present and the handshake fails) and `readyState` equal to
the health read at response time. -/
theorem gate_503_body_is_structured (uri : Option String) (rs0 rs1 h0 : Nat)
    (before during : List Event) (g : GateRun)
    (hrun : gateRequest uri rs0 rs1 during (run before (World.empty h0)).2 = some g)
    (h503 : statusOf g.effects = some 503) :
    g = apiGate uri rs0 none rs1 (run before (World.empty h0)).2 ∧
    (∀ message, awaited (connectDB uri (run before (World.empty h0)).2).1
        (run during (connectDB uri (run before (World.empty h0)).2).2).2 ≠
          some (Except.error message)) ∧
    ∃ body, bodyOf g.effects = some body ∧
      field "success" body = some (JVal.bool false) ∧
      (∃ text, field "message" body = some (JVal.str text)) ∧
      (∃ text, field "error" body = some (JVal.str text)) ∧
      field "mongoUriSet" body = some (JVal.bool (uriSet uri)) ∧
      (uriSet uri = true → field "mongoUriSet" body = some (JVal.bool true)) ∧
      field "readyState" body = some (JVal.num rs1) := by
  have hnr : NoRejection (run during (connectDB uri (run before (World.empty h0)).2).2).2 :=
    noRejection_run during _ (noRejection_connectDB uri _
      (noRejection_run before _ (noRejection_empty h0)))
  have hnever := fun message =>
    awaited_never_raises (connectDB uri (run before (World.empty h0)).2).1 _ hnr message
  have hg : g = apiGate uri rs0 none rs1 (run before (World.empty h0)).2 := by
    unfold gateRequest at hrun
    split at hrun
    · exact (Option.some.inj hrun).symm
    · split at hrun
      · simp at hrun
      · exact (Option.some.inj hrun).symm
      · next message heq => exact absurd heq (hnever message)
  refine ⟨hg, hnever, ?_⟩
  subst hg
  by_cases e0 : rs0 = 1
  · simp [apiGate, e0, statusOf] at h503
  · by_cases e1 : rs1 = 1
    · simp [apiGate, e0, e1, statusOf] at h503
    · refine ⟨stringify
          [("success", JVal.bool false),
           ("message", JVal.str "Database connection failed"),
           ("error", JVal.str "Could not establish MongoDB connection. Please check your MONGO_URI environment variable."),
           ("mongoUriSet", JVal.bool (uriSet uri)),
           ("readyState", JVal.num rs1)],
        by simp only [apiGate, e0, e1, if_false, bodyOf], ?_⟩
      simp [stringify, field, List.lookup]

theorem gate_503_body_is_structured_witness :
    gateRequest sampleUri 0 0 [Event.settle 0 (Handshake.failed "timed out")]
      (run [] (World.empty 0)).2 =
      some (apiGate sampleUri 0 none 0 (run [] (World.empty 0)).2) ∧
    statusOf (apiGate sampleUri 0 none 0 (run [] (World.empty 0)).2).effects = some 503 ∧
    (∀ message, awaited (connectDB sampleUri (run [] (World.empty 0)).2).1
        (run [Event.settle 0 (Handshake.failed "timed out")]
          (connectDB sampleUri (run [] (World.empty 0)).2).2).2 ≠
          some (Except.error message)) ∧
    bodyOf (apiGate sampleUri 0 none 0 (run [] (World.empty 0)).2).effects =
      some [("success", JVal.bool false),
            ("message", JVal.str "Database connection failed"),
            ("error", JVal.str "Could not establish MongoDB connection. Please check your MONGO_URI environment variable."),
            ("mongoUriSet", JVal.bool true),
            ("readyState", JVal.num 0)] :=
  ⟨by decide, by decide,
    (gate_503_body_is_structured sampleUri 0 0 0 []
      [Event.settle 0 (Handshake.failed "timed out")]
      (apiGate sampleUri 0 none 0 (run [] (World.empty 0)).2) (by decide) (by decide)).2.1,
    by decide⟩

/-- C7. For every module path `p`: if loading `p` succeeds with module `m`, `safeRequire p`
is `m` itself; if loading `p` fails with an error of message `e`, `safeRequire p` is a handler
that, for every request, does not raise, responds with status 500 and the body
`{success: false, message: "Route module failed to load: " ++ p, error: e}`, and never invokes
`next`. -/
theorem safeRequire_isolates_load_failure (load : String → Except String Nat) (p : String) :
    (∀ m, load p = Except.ok m → safeRequire load p = Handler.module m) ∧
    (∀ e, load p = Except.error e →
      ∃ handle, safeRequire load p = Handler.closure handle ∧
        ∀ req : Request, ∃ effects, handle req = Except.ok effects ∧
          statusOf effects = some 500 ∧
          bodyOf effects = some
            [("success", JVal.bool false),
             ("message", JVal.str ("Route module failed to load: " ++ p)),
             ("error", JVal.str e)] ∧
          responded effects = true ∧
          nextCalls effects = 0) := by
  constructor
  · intro m hm
    simp [safeRequire, hm]
  · intro e he
    refine ⟨_, by simp only [safeRequire, he]; rfl, fun req => ⟨_, rfl, ?_⟩⟩
    simp [statusOf, bodyOf, responded, nextCalls, stringify]

theorem safeRequire_isolates_load_failure_witness :
    failing "./routes/jobs" "./routes/jobs" = Except.error "Cannot find module" ∧
    failing "./routes/jobs" "./routes/auth" = Except.ok 13 ∧
    safeRequire (failing "./routes/jobs") "./routes/auth" = Handler.module 13 ∧
    (safeRequire (failing "./routes/jobs") "./routes/jobs").isFallback = true :=
  ⟨rfl, rfl,
    (safeRequire_isolates_load_failure (failing "./routes/jobs") "./routes/auth").1 13 rfl,
    by
      obtain ⟨handle, hh, _⟩ :=
        (safeRequire_isolates_load_failure (failing "./routes/jobs") "./routes/jobs").2
          "Cannot find module" rfl
      rw [hh]
      rfl⟩

/-- C8, as stated, fails for the jobs module: when `./routes/jobs` is the only module that fails
to load, two prefixes of the route table, `/api/jobs` and its alias `/api/internships`,
are bound to a fallback handler. -/
theorem jobs_failure_degrades_two_prefixes :
    "./routes/jobs" ∈ routeModules ∧
    OnlyFails (failing "./routes/jobs") "./routes/jobs" ∧
    fallbackPrefixes (failing "./routes/jobs") = ["/api/jobs", "/api/internships"] ∧
    (fallbackPrefixes (failing "./routes/jobs")).length ≠ 1 :=
  ⟨by decide, onlyFails_failing "./routes/jobs", by decide, by decide⟩

/-- C8, amended. For every registered route module `m` and every assignment of load outcomes
in which `m` is the only module that fails to load, the prefixes bound to a fallback handler are
exactly the prefixes registered for `m` (one prefix for every module except `./routes/jobs`,
which is registered under `/api/jobs` and `/api/internships`), and every other registered prefix
is bound to its successfully loaded module; registered prefixes are pairwise distinct. -/
theorem single_failure_degrades_own_prefixes (m : String)
    (load : String → Except String Nat)
    (hm : m ∈ routeModules) (h : OnlyFails load m) :
    fallbackPrefixes load = prefixesOf m ∧
    (prefixesOf m).length = (if m = "./routes/jobs" then 2 else 1) ∧
    (∀ r, r ∈ registrations → r.2 ≠ m →
      ∃ v, load r.2 = Except.ok v ∧ (r.1, Handler.module v) ∈ routeTable load) ∧
    (∀ r, r ∈ registrations → r.2 = m →
      ∃ handle, (r.1, Handler.closure handle) ∈ routeTable load) ∧
    (registrations.map (fun r => r.1)).Nodup := by
  refine ⟨fallback_filter_eq load m h registrations registrations_modules,
    prefixes_per_module m hm, ?_, ?_, registered_prefixes_distinct⟩
  · intro r hr hne
    have hmod := registrations_modules r hr
    cases hl : load r.2 with
    | error e => exact absurd ((h r.2 hmod).mp ⟨e, hl⟩) hne
    | ok v =>
      refine ⟨v, rfl, ?_⟩
      unfold routeTable
      refine List.mem_map.mpr ⟨r, hr, ?_⟩
      simp [safeRequire, hl]
  · intro r hr heq
    have hmod := registrations_modules r hr
    obtain ⟨e, he⟩ := (h r.2 hmod).mpr heq
    obtain ⟨handle, hh, _⟩ := (safeRequire_handler load r.2 e he)
    refine ⟨handle, ?_⟩
    unfold routeTable
    exact List.mem_map.mpr ⟨r, hr, by rw [hh]⟩

theorem single_failure_degrades_own_prefixes_witness :
    "./routes/auth" ∈ routeModules ∧
    OnlyFails (failing "./routes/auth") "./routes/auth" ∧
    fallbackPrefixes (failing "./routes/auth") = prefixesOf "./routes/auth" ∧
    prefixesOf "./routes/auth" = ["/api/auth"] :=
  ⟨by decide, onlyFails_failing "./routes/auth",
    (single_failure_degrades_own_prefixes "./routes/auth" (failing "./routes/auth")
      (by decide) (onlyFails_failing "./routes/auth")).1,
    by decide⟩

/-- C10, as stated, fails when `NODE_ENV` is `development`: the 500 body of the fallback handler
then carries a fourth property, `stack`. -/
theorem development_body_carries_stack :
    bodyOf (initFallback sampleError (some "development") { method := "GET", url := "/" }) =
      some [("success", JVal.bool false),
            ("message", JVal.str "Server initialization failed"),
            ("error", JVal.str "Cannot find module express"),
            ("stack", JVal.str "Error: Cannot find module express at index.js:30")] ∧
    bodyOf (initFallback sampleError (some "development") { method := "GET", url := "/" }) ≠
      some [("success", JVal.bool false),
            ("message", JVal.str "Server initialization failed"),
            ("error", JVal.str sampleError.message)] := by
  decide

/-- C10, amended. For every load error `e`, every `NODE_ENV` and every request, the fallback
handler first sets the four cross-cutting headers and then responds: with status 200 and no body
when the method is `OPTIONS`; otherwise with status 500 and the body
`{success: false, message: "Server initialization failed", error: e.message}`, which carries
`e.stack` as a further property `stack` exactly when `NODE_ENV` is `development` and the stack
is defined. It never invokes `next`. -/
theorem initFallback_sets_headers_then_responds (e : JsError) (nodeEnv : Option String)
    (req : Request) :
    headersBefore (initFallback e nodeEnv req) =
      [("Access-Control-Allow-Origin", "*"),
       ("Access-Control-Allow-Methods", "GET, POST, PUT, DELETE, OPTIONS, PATCH"),
       ("Access-Control-Allow-Headers", "Content-Type, Authorization, X-Requested-With"),
       ("Access-Control-Allow-Credentials", "true")] ∧
    (initFallback e nodeEnv req).length = 6 ∧
    responded (initFallback e nodeEnv req) = true ∧
    nextCalls (initFallback e nodeEnv req) = 0 ∧
    (req.method = "OPTIONS" →
      statusOf (initFallback e nodeEnv req) = some 200 ∧
      bodyOf (initFallback e nodeEnv req) = none ∧
      (initFallback e nodeEnv req).getLast? = some Effect.endEmpty) ∧
    (req.method ≠ "OPTIONS" →
      statusOf (initFallback e nodeEnv req) = some 500 ∧
      bodyOf (initFallback e nodeEnv req) = some
        ([("success", JVal.bool false),
          ("message", JVal.str "Server initialization failed"),
          ("error", JVal.str e.message)] ++
          (if nodeEnv = some "development" then
            (match e.stack with
             | some s => [("stack", JVal.str s)]
             | none => [])
           else []))) := by
  by_cases hm : req.method = "OPTIONS"
  · simp [initFallback, hm, headersBefore, responded, nextCalls, statusOf, bodyOf]
  · by_cases hd : nodeEnv = some "development"
    · cases hs : e.stack with
      | none =>
        simp [initFallback, hm, hd, hs, headersBefore, responded, nextCalls, statusOf, bodyOf,
          stringify]
      | some st =>
        simp [initFallback, hm, hd, hs, headersBefore, responded, nextCalls, statusOf, bodyOf,
          stringify]
    · simp [initFallback, hm, hd, headersBefore, responded, nextCalls, statusOf, bodyOf,
        stringify]

end Portal
